import Mathlib

/-!
Shallow embedding of `eltakodevice_discovery/ymalRepresentation.py`
(Home Assistant Eltako device-discovery tool): the static device profile
table `EEP_MAPPING`, the organization mapping `ORG_MAPPING`, and the
`HaConfig` accumulator with its operations `find_device_info`,
`get_formatted_address`, `add_device`, `guess_sensor_type_by_address`
and `add_sensor`.

Python integers are modelled as `Nat` (all addresses in the tool are
non-negative), byte strings as `List Nat`, Python dicts of records as
structures with `Option` fields, and the insertion-ordered
`self.eltako` dict as an association list.  A Python exception
(`KeyError` from an unguarded dict lookup) is modelled by `Except`.
-/

/-- Uppercase hexadecimal digit characters, in value order.  Python's
`"%x"` formatting followed by `.upper()` draws its digits from this set. -/
def HEXCHARS : List Char :=
  ['0', '1', '2', '3', '4', '5', '6', '7', '8', '9', 'A', 'B', 'C', 'D', 'E', 'F']

/-- The uppercase hex digit of a value `n < 16`. -/
def hexChar (n : Nat) : Char := HEXCHARS.getD n '*'

/-- Minimal-length big-endian uppercase hex digit list of `n`: the model of
Python's `f"{n:x}".upper()` (no padding). -/
def toHexList (n : Nat) : List Char :=
  if _h : n < 16 then [hexChar n]
  else toHexList (n / 16) ++ [hexChar (n % 16)]
termination_by n
decreasing_by exact Nat.div_lt_self (by omega) (by omega)

/-- Left-pad a digit list with `'0'` up to width `k`: the model of the `0k`
width part of Python's `f"{n:0kx}"` format. -/
def padLeft (k : Nat) (l : List Char) : List Char :=
  List.replicate (k - l.length) '0' ++ l

/-- `HaConfig.get_formatted_address`: format `address` as
`f"{address:08x}".upper()` and join the four 2-character slices
`a[0:2]`, `a[2:4]`, `a[4:6]`, `a[6:8]` with hyphens. -/
def get_formatted_address (address : Nat) : String :=
  let a := padLeft 8 (toHexList address)
  String.mk (a.take 2 ++ '-' :: ((a.drop 2).take 2 ++ '-' :: ((a.drop 4).take 2 ++ '-' :: (a.drop 6).take 2)))

/-- Value of an uppercase hex digit character (index in `HEXCHARS`). -/
def hexVal (c : Char) : Nat := HEXCHARS.indexOf c

/-- Big-endian decoding of a hex digit list. -/
def decodeHex (l : List Char) : Nat :=
  l.foldl (fun acc c => 16 * acc + hexVal c) 0

/-- Decode a formatted address string back to a number, ignoring hyphens. -/
def unformatAddress (s : String) : Nat :=
  decodeHex (s.data.filter (fun c => c != '-'))

lemma hexVal_hexChar : ∀ d, d < 16 → hexVal (hexChar d) = d := by decide

lemma hexChar_mem : ∀ d, d < 16 → hexChar d ∈ HEXCHARS := by decide

lemma decodeHex_acc (l : List Char) :
    ∀ a : Nat, l.foldl (fun acc c => 16 * acc + hexVal c) a =
      a * 16 ^ l.length + decodeHex l := by
  induction l with
  | nil => intro a; simp [decodeHex]
  | cons c t ih =>
    intro a
    simp only [List.foldl_cons, decodeHex, List.length_cons]
    rw [ih (16 * a + hexVal c), ih (16 * 0 + hexVal c)]
    ring

lemma decodeHex_append_single (l : List Char) (c : Char) :
    decodeHex (l ++ [c]) = 16 * decodeHex l + hexVal c := by
  simp only [decodeHex, List.foldl_append, List.foldl_cons, List.foldl_nil]

lemma decodeHex_toHexList (n : Nat) : decodeHex (toHexList n) = n := by
  induction n using Nat.strong_induction_on with
  | _ n ih =>
    rw [toHexList]
    split
    · rename_i h
      simp [decodeHex, hexVal_hexChar n h]
    · rename_i h
      rw [decodeHex_append_single,
          ih (n / 16) (Nat.div_lt_self (by omega) (by omega)),
          hexVal_hexChar (n % 16) (Nat.mod_lt _ (by omega))]
      omega

lemma decodeHex_replicate_zero (k : Nat) (l : List Char) :
    decodeHex (List.replicate k '0' ++ l) = decodeHex l := by
  induction k with
  | zero => simp
  | succ k ih =>
    simp only [List.replicate_succ, List.cons_append, decodeHex, List.foldl_cons]
    have hz : (16 * 0 + hexVal '0' : Nat) = 0 := by decide
    rw [hz]
    exact ih

lemma decodeHex_padLeft (k : Nat) (l : List Char) :
    decodeHex (padLeft k l) = decodeHex l :=
  decodeHex_replicate_zero _ _

lemma toHexList_length_le : ∀ n k, 0 < k → n < 16 ^ k → (toHexList n).length ≤ k := by
  intro n
  induction n using Nat.strong_induction_on with
  | _ n ih =>
    intro k hk hn
    rw [toHexList]
    split
    · simpa using hk
    · rename_i h
      have h16 : 16 ≤ n := by omega
      have hk2 : 2 ≤ k := by
        by_contra hc
        have hk1 : k = 1 := by omega
        subst hk1
        simp at hn
        omega
      have hdiv : n / 16 < 16 ^ (k - 1) := by
        have hpow : 16 ^ (k - 1) * 16 = 16 ^ k := by
          rw [← pow_succ]
          congr 1
          omega
        rw [Nat.div_lt_iff_lt_mul (by omega)]
        omega
      have := ih (n / 16) (Nat.div_lt_self (by omega) (by omega)) (k - 1) (by omega) hdiv
      simp only [List.length_append, List.length_cons, List.length_nil]
      omega

lemma mem_toHexList : ∀ n c, c ∈ toHexList n → c ∈ HEXCHARS := by
  intro n
  induction n using Nat.strong_induction_on with
  | _ n ih =>
    intro c hc
    rw [toHexList] at hc
    split at hc
    · rename_i h
      simp at hc
      subst hc
      exact hexChar_mem n h
    · rename_i h
      rcases List.mem_append.mp hc with h1 | h2
      · exact ih (n / 16) (Nat.div_lt_self (by omega) (by omega)) c h1
      · simp at h2
        subst h2
        exact hexChar_mem (n % 16) (Nat.mod_lt _ (by omega))

lemma padLeft8_length (a : Nat) (ha : a < 2 ^ 32) :
    (padLeft 8 (toHexList a)).length = 8 := by
  have hle : (toHexList a).length ≤ 8 :=
    toHexList_length_le a 8 (by omega) (by norm_num at ha ⊢; omega)
  simp only [padLeft, List.length_append, List.length_replicate]
  omega

lemma mem_padLeft (k : Nat) (l : List Char) (hl : ∀ c ∈ l, c ∈ HEXCHARS) :
    ∀ c ∈ padLeft k l, c ∈ HEXCHARS := by
  intro c hc
  rcases List.mem_append.mp hc with h1 | h2
  · have := List.eq_of_mem_replicate h1
    subst this
    decide
  · exact hl c h2

/-- One row of `EEP_MAPPING`: a static hardware profile.  `sender_eep` is
`none` for rows whose Python dict has no `'sender_eep'` key. -/
structure Profile where
  hw_type : String
  eep : String
  sender_eep : Option String
  type : String
  description : String
  address_count : Nat
  deriving DecidableEq, Repr

/-- The static device profile table `EEP_MAPPING`, transcribed row by row. -/
def EEP_MAPPING : List Profile :=
  [ ⟨"FTS14EM", "F6-02-01", none, "binary_sensor", "Rocker switch", 1⟩,
    ⟨"FTS14EM", "F6-02-02", none, "binary_sensor", "Rocker switch", 1⟩,
    ⟨"FTS14EM", "F6-10-00", none, "binary_sensor", "Window handle", 1⟩,
    ⟨"FTS14EM", "D5-00-01", none, "binary_sensor", "Contact sensor", 1⟩,
    ⟨"FTS14EM", "A5-08-01", none, "binary_sensor", "Occupancy sensor", 1⟩,
    ⟨"FWG14", "A5-13-01", none, "sensor", "Weather station", 1⟩,
    ⟨"FTS14EM", "A5-12-01", none, "sensor", "Window handle", 1⟩,
    ⟨"FSDG14", "A5-12-02", none, "sensor", "Automated meter reading - electricity", 1⟩,
    ⟨"F3Z14D", "A5-13-01", none, "sensor", "Automated meter reading - gas", 1⟩,
    ⟨"F3Z14D", "A5-12-03", none, "sensor", "Automated meter reading - water", 1⟩,
    ⟨"FUD14", "A5-38-08", some "A5-38-08", "light", "Central command - gateway", 1⟩,
    ⟨"FSR14_1x", "M5-38-08", some "A5-38-08", "light", "Eltako relay", 1⟩,
    ⟨"FSR14_x2", "M5-38-08", some "A5-38-08", "light", "Eltako relay", 2⟩,
    ⟨"FSR14_4x", "M5-38-08", some "A5-38-08", "light", "Eltako relay", 4⟩,
    ⟨"FSR14_1x", "M5-38-08", some "A5-38-08", "switch", "Eltako relay", 1⟩,
    ⟨"FSR14_x2", "M5-38-08", some "A5-38-08", "switch", "Eltako relay", 2⟩,
    ⟨"FSR14_4x", "M5-38-08", some "A5-38-08", "switch", "Eltako relay", 4⟩,
    ⟨"FSB14", "G5-3F-7F", some "H5-3F-7F", "cover", "Eltako cover", 1⟩ ]

/-- `HaConfig.find_device_info`: first row of `EEP_MAPPING` whose
`hw-type` equals `name`, else `None`. -/
def find_device_info (name : String) : Option Profile :=
  EEP_MAPPING.find? (fun i => i.hw_type == name)

/-- A discovered device/sensor record (`dev_obj` / `sensor` dict).
Keys absent from the Python dict are `none`; the nested sender dict
`{'id': ..., 'eep': ...}` is a pair. -/
structure DevRecord where
  id : String
  eep : String
  name : String
  sender : Option (String × String)
  device_class : Option String
  time_closes : Option Nat
  time_opens : Option Nat
  comment : Option String
  deriving DecidableEq, Repr

/-- The accumulator state of a `HaConfig` instance.  `eltako` is the
insertion-ordered dict from role category to record list. -/
structure HaConfig where
  eltako : List (String × List DevRecord)
  sener_id_list : List (List Nat)
  sender_address : Nat
  export_logger : Bool
  deriving DecidableEq, Repr

/-- `HaConfig.__init__`: empty dict, empty dedup list, configured default
sender address. -/
def HaConfig.start (default_sender_address : Nat) (save_debug_log_config : Bool) : HaConfig :=
  ⟨[], [], default_sender_address, save_debug_log_config⟩

/-- Lookup `e[k]` in the insertion-ordered dict, defaulting to `[]`. -/
def getList : List (String × List DevRecord) → String → List DevRecord
  | [], _ => []
  | (k', l) :: rest, k => if k' = k then l else getList rest k

/-- The combined effect of
`if info['type'] not in self.eltako: self.eltako[info['type']] = []` and
`self.eltako[info['type']].append(obj)`: append to the list at key `k`,
auto-creating the key at the end of the dict on first use. -/
def appendRec : List (String × List DevRecord) → String → DevRecord → List (String × List DevRecord)
  | [], k, r => [(k, [r])]
  | (k', l) :: rest, k, r =>
      if k' = k then (k', l ++ [r]) :: rest else (k', l) :: appendRec rest k r

/-- The `dev_obj` dict built by one iteration of `add_device`'s loop for
the absolute address `addr = device.address + i`.  The sender id is
`self.sender_address + device.address + i`.  In the source the sender
eep is the unguarded lookup `info['sender_eep']`; the `getD` default is
unreachable because `add_device` raises first (see `add_device`). -/
def devObj (sender_address : Nat) (info : Profile) (device_name : String) (addr : Nat) : DevRecord :=
  { id := get_formatted_address addr
    eep := info.eep
    name := device_name ++ " - " ++ toString addr
    sender :=
      if info.type ∈ (["light", "switch", "cover"] : List String) then
        some (get_formatted_address (sender_address + addr), info.sender_eep.getD "")
      else none
    device_class := if info.type = "cover" then some "shutter" else none
    time_closes := if info.type = "cover" then some 24 else none
    time_opens := if info.type = "cover" then some 25 else none
    comment := none }

/-- `HaConfig.add_device`.  The device descriptor is its type name plus
base address.  A profile whose role is actuator-like but has no
`sender_eep` key would raise `KeyError` inside the first loop iteration,
before any state change; since the error condition does not depend on
the loop index it is hoisted in front of the fold (it fires only when
the loop runs at all, i.e. `address_count > 0`).  No row of
`EEP_MAPPING` actually triggers it. -/
def add_device (cfg : HaConfig) (device_name : String) (base : Nat) : Except String HaConfig :=
  match find_device_info device_name with
  | none => .ok cfg
  | some info =>
      if 0 < info.address_count ∧
          info.type ∈ (["light", "switch", "cover"] : List String) ∧
          info.sender_eep = none then
        .error "KeyError: sender_eep"
      else
        .ok ((List.range info.address_count).foldl
          (fun c i =>
            { c with eltako := appendRec c.eltako info.type (devObj c.sender_address info device_name (base + i)) })
          cfg)

/-- The runtime classes a telegram object can have, as far as this tool
distinguishes them via `type(msg)`.  `OtherMessage` stands for any
further `ESP2Message` subclass. -/
inductive MsgType where
  | EltakoWrappedRPS
  | EltakoWrapped4BS
  | RPSMessage
  | Regular4BSMessage
  | Regular1BSMessage
  | EltakoMessage
  | EltakoDiscoveryRequest
  | OtherMessage
  deriving DecidableEq, Repr

/-- `type(msg).__name__` for the modelled classes. -/
def msgTypeName : MsgType → String
  | .EltakoWrappedRPS => "EltakoWrappedRPS"
  | .EltakoWrapped4BS => "EltakoWrapped4BS"
  | .RPSMessage => "RPSMessage"
  | .Regular4BSMessage => "Regular4BSMessage"
  | .Regular1BSMessage => "Regular1BSMessage"
  | .EltakoMessage => "EltakoMessage"
  | .EltakoDiscoveryRequest => "EltakoDiscoveryRequest"
  | .OtherMessage => "ESP2Message"

/-- `SENSOR_MESSAGE_TYPES` from the source, as the list of class tags. -/
def SENSOR_MESSAGE_TYPES : List MsgType :=
  [.EltakoWrappedRPS, .EltakoWrapped4BS, .RPSMessage, .Regular4BSMessage,
   .Regular1BSMessage, .EltakoMessage]

/-- A bus telegram at the boundary of this tool: the runtime class tag,
the `org` attribute, the `address` attribute (a byte string), the
`body` attribute (a byte string), and whether the object carries an
`outgoing` attribute (`hasattr(msg, 'outgoing')`). -/
structure Telegram where
  msgType : MsgType
  org : Nat
  address : List Nat
  body : List Nat
  hasOutgoing : Bool
  deriving DecidableEq, Repr

/-- One row of `ORG_MAPPING`. -/
structure OrgInfo where
  telegram : String
  rorg : String
  name : String
  type : String
  eep : String
  deriving DecidableEq, Repr

/-- `ORG_MAPPING`: dict keyed by organization code.  `none` models the
absence of the key, on which Python's `ORG_MAPPING[msg.org]` raises a
`KeyError`. -/
def ORG_MAPPING (org : Nat) : Option OrgInfo :=
  if org = 5 then some ⟨"RPS", "F6", "Switch", "binary_sensor", "F6-02-01"⟩
  else if org = 6 then some ⟨"1BS", "D5", "1 Byte Communication", "sensor", "D5-??-??"⟩
  else if org = 7 then some ⟨"4BS", "A5", "4 Byte Communication", "sensor", "A5-??-??"⟩
  else none

/-- Strict lexicographic order on byte strings: Python's `<` on `bytes`. -/
def bytesLt : List Nat → List Nat → Bool
  | [], [] => false
  | [], _ :: _ => true
  | _ :: _, [] => false
  | a :: as, b :: bs => if a < b then true else if b < a then false else bytesLt as bs

/-- Non-strict lexicographic order on byte strings: Python's `<=` on `bytes`. -/
def bytesLe (x y : List Nat) : Bool := bytesLt x y || x == y

/-- Big-endian 2-byte encoding: Python's `n.to_bytes(2, 'big')` for `n < 2 ^ 16`. -/
def toBytes2 (n : Nat) : List Nat := [n / 256 % 256, n % 256]

/-- The reinterpreted frame built inside `guess_sensor_type_by_address`:
`b"\xa5\x5a" + msg.body[:-1] + (sum(msg.body[:-1]) % 256).to_bytes(2, 'big')`. -/
def reinterpretData (msg : Telegram) : List Nat :=
  [0xa5, 0x5a] ++ msg.body.dropLast ++ toBytes2 (msg.body.dropLast.sum % 256)

/-- The lower bound `b'\x00\x00\x10\x01'` of the FTS14EM address range. -/
def min_address : List Nat := [0x00, 0x00, 0x10, 0x01]

/-- The upper bound `b'\x00\x00\x14\x89'` of the FTS14EM address range. -/
def max_address : List Nat := [0x00, 0x00, 0x14, 0x89]

/-- `HaConfig.guess_sensor_type_by_address`.  The external library call
`Regular1BSMessage.parse(data)` is passed in as the function `parse`,
returning the parsed message's `address` on success and `none` when the
library raises (the `except: pass` swallows the exception and control
falls through past the first rule). -/
def guess_sensor_type_by_address (parse : List Nat → Option (List Nat)) (msg : Telegram) : String :=
  let firstRule : Option String :=
    if msg.msgType = MsgType.Regular1BSMessage then
      match parse (reinterpretData msg) with
      | some addr =>
          if bytesLe min_address addr && bytesLe addr max_address then
            some "FTS14EM switch"
          else none
      | none => none
    else none
  match firstRule with
  | some s => s
  | none =>
      if msg.msgType = MsgType.RPSMessage && bytesLt [0xFE, 0xDB, 0x00, 0x00] msg.address then
        "Wall Switch /Rocker Switch"
      else if msg.msgType = MsgType.Regular4BSMessage then
        "Multi-Sensor ? "
      else "???"

/-- The external helper `b2a(msg.address).replace(' ', '-').upper()`:
each byte as two hex digits (`'%02x'`), joined with hyphens, uppercased.
`hexChar`/`padLeft` already produce the uppercase digits. -/
def b2aFmt (address : List Nat) : String :=
  String.mk (List.intercalate ['-'] (address.map (fun b => padLeft 2 (toHexList b))))

/-- The `sensor` dict built by `add_sensor` for a telegram whose org code
maps to `info`. -/
def sensorRecord (parse : List Nat → Option (List Nat)) (msg : Telegram) (info : OrgInfo) :
    DevRecord :=
  let address := b2aFmt msg.address
  let sensor_type := guess_sensor_type_by_address parse msg
  let comment :=
    "Sensor Type: " ++ sensor_type ++ ", Derived from Msg Type: " ++ msgTypeName msg.msgType
  { id := address
    eep := info.eep
    name := info.name ++ " " ++ address
    sender := none
    device_class :=
      if info.type = "binary_sensor" then
        some "window / door / smoke / motion / ?"
      else none
    time_closes := none
    time_opens := none
    comment := some comment }

/-- `HaConfig.add_sensor`.  Returns `.error` exactly where the Python
code raises: the unguarded `ORG_MAPPING[msg.org]` lookup, reached when
the telegram's class is in `SENSOR_MESSAGE_TYPES`, the object has an
`outgoing` attribute and its address is not yet in `sener_id_list`; the
lookup precedes every state mutation, so the state at the raise point
is unchanged.  The `EltakoDiscoveryRequest` branch of the source only
logs and never mutates state. -/
def add_sensor (parse : List Nat → Option (List Nat)) (msg : Telegram) (cfg : HaConfig) :
    Except String HaConfig :=
  if msg.msgType ∈ SENSOR_MESSAGE_TYPES then
    if msg.hasOutgoing then
      if msg.address ∈ cfg.sener_id_list then .ok cfg
      else
        match ORG_MAPPING msg.org with
        | none => .error "KeyError: org"
        | some info =>
            .ok { cfg with
                    eltako := appendRec cfg.eltako info.type (sensorRecord parse msg info)
                    sener_id_list := cfg.sener_id_list ++ [msg.address] }
    else .ok cfg
  else .ok cfg

/-- Total number of records stored in the accumulator dict. -/
def numRecords (cfg : HaConfig) : Nat :=
  (cfg.eltako.map (fun p => p.2.length)).sum

lemma getList_appendRec_self (e : List (String × List DevRecord)) (k : String) (r : DevRecord) :
    getList (appendRec e k r) k = getList e k ++ [r] := by
  induction e with
  | nil => simp [appendRec, getList]
  | cons p rest ih =>
    obtain ⟨k', l⟩ := p
    simp only [appendRec, getList]
    split
    · simp [getList, *]
    · simp [getList, *]

lemma getList_appendRec_ne (e : List (String × List DevRecord)) (k k' : String) (r : DevRecord)
    (h : k' ≠ k) : getList (appendRec e k r) k' = getList e k' := by
  induction e with
  | nil => simp [appendRec, getList, Ne.symm h]
  | cons p rest ih =>
    obtain ⟨k₀, l⟩ := p
    simp only [appendRec, getList]
    split
    · rename_i hk
      subst hk
      simp [getList, Ne.symm h]
    · simp only [getList]
      split
      · rfl
      · exact ih

lemma numRecords_appendRec (e : List (String × List DevRecord)) (k : String) (r : DevRecord) :
    ((appendRec e k r).map (fun p => p.2.length)).sum = ((e.map (fun p => p.2.length)).sum) + 1 := by
  induction e with
  | nil => simp [appendRec]
  | cons p rest ih =>
    obtain ⟨k', l⟩ := p
    simp only [appendRec]
    split
    · simp
      omega
    · simp [ih]
      omega

/-- The body of `add_device`'s loop. -/
def addDevStep (info : Profile) (device_name : String) (base : Nat) (c : HaConfig) (i : Nat) :
    HaConfig :=
  { c with eltako := appendRec c.eltako info.type (devObj c.sender_address info device_name (base + i)) }

lemma add_device_eq_fold (cfg : HaConfig) (device_name : String) (base : Nat) (info : Profile)
    (hfind : find_device_info device_name = some info)
    (hok : ¬(0 < info.address_count ∧
        info.type ∈ (["light", "switch", "cover"] : List String) ∧ info.sender_eep = none)) :
    add_device cfg device_name base =
      .ok ((List.range info.address_count).foldl (addDevStep info device_name base) cfg) := by
  simp only [add_device, hfind]
  split
  · exact absurd (by assumption) hok
  · rfl

lemma foldl_addDevStep_frame (info : Profile) (device_name : String) (base : Nat) :
    ∀ (l : List Nat) (cfg : HaConfig),
      (l.foldl (addDevStep info device_name base) cfg).sener_id_list = cfg.sener_id_list ∧
      (l.foldl (addDevStep info device_name base) cfg).sender_address = cfg.sender_address ∧
      (l.foldl (addDevStep info device_name base) cfg).export_logger = cfg.export_logger := by
  intro l
  induction l with
  | nil => intro cfg; exact ⟨rfl, rfl, rfl⟩
  | cons i t ih =>
    intro cfg
    simpa [addDevStep] using ih (addDevStep info device_name base cfg i)

lemma foldl_addDevStep_getList_self (info : Profile) (device_name : String) (base : Nat) :
    ∀ (n : Nat) (cfg : HaConfig),
      getList ((List.range n).foldl (addDevStep info device_name base) cfg).eltako info.type =
        getList cfg.eltako info.type ++
          (List.range n).map (fun i => devObj cfg.sender_address info device_name (base + i)) := by
  intro n
  induction n with
  | zero => intro cfg; simp
  | succ n ih =>
    intro cfg
    rw [List.range_succ, List.foldl_append, List.foldl_cons, List.foldl_nil,
        List.map_append, List.map_cons, List.map_nil]
    simp only [addDevStep]
    rw [getList_appendRec_self, ih cfg]
    have hs := (foldl_addDevStep_frame info device_name base (List.range n) cfg).2.1
    rw [hs, List.append_assoc]

lemma foldl_addDevStep_getList_ne (info : Profile) (device_name : String) (base : Nat)
    (k : String) (hk : k ≠ info.type) :
    ∀ (l : List Nat) (cfg : HaConfig),
      getList ((l.foldl (addDevStep info device_name base) cfg)).eltako k =
        getList cfg.eltako k := by
  intro l
  induction l with
  | nil => intro cfg; rfl
  | cons i t ih =>
    intro cfg
    rw [List.foldl_cons, ih]
    exact getList_appendRec_ne _ _ _ _ hk

lemma foldl_addDevStep_numRecords (info : Profile) (device_name : String) (base : Nat) :
    ∀ (l : List Nat) (cfg : HaConfig),
      numRecords (l.foldl (addDevStep info device_name base) cfg) = numRecords cfg + l.length := by
  intro l
  induction l with
  | nil => intro cfg; simp
  | cons i t ih =>
    intro cfg
    rw [List.foldl_cons, ih]
    simp only [numRecords, addDevStep, List.length_cons]
    rw [numRecords_appendRec]
    omega

lemma EEP_MAPPING_sender_eep :
    ∀ p ∈ EEP_MAPPING,
      p.type ∈ (["light", "switch", "cover"] : List String) → p.sender_eep ≠ none := by
  decide

lemma add_device_no_error (info : Profile) (hmem : info ∈ EEP_MAPPING) :
    ¬(0 < info.address_count ∧
        info.type ∈ (["light", "switch", "cover"] : List String) ∧ info.sender_eep = none) :=
  fun h => EEP_MAPPING_sender_eep info hmem h.2.1 h.2.2

lemma add_device_ok (cfg : HaConfig) (device_name : String) (base : Nat) :
    ∃ cfg', add_device cfg device_name base = .ok cfg' := by
  cases hf : find_device_info device_name with
  | none => exact ⟨cfg, by simp [add_device, hf]⟩
  | some info =>
    have hmem : info ∈ EEP_MAPPING := List.mem_of_find?_eq_some hf
    refine ⟨_, add_device_eq_fold cfg device_name base info hf (add_device_no_error info hmem)⟩

lemma add_sensor_fresh (parse : List Nat → Option (List Nat)) (msg : Telegram) (cfg : HaConfig)
    (info : OrgInfo) (ht : msg.msgType ∈ SENSOR_MESSAGE_TYPES) (ho : msg.hasOutgoing = true)
    (horg : ORG_MAPPING msg.org = some info) (ha : msg.address ∉ cfg.sener_id_list) :
    add_sensor parse msg cfg =
      .ok { cfg with
              eltako := appendRec cfg.eltako info.type (sensorRecord parse msg info)
              sener_id_list := cfg.sener_id_list ++ [msg.address] } := by
  simp [add_sensor, ht, ho, ha, horg]

lemma add_sensor_dup (parse : List Nat → Option (List Nat)) (msg : Telegram) (cfg : HaConfig)
    (ha : msg.address ∈ cfg.sener_id_list) :
    add_sensor parse msg cfg = .ok cfg := by
  simp only [add_sensor]
  split
  · split
    · simp [ha]
    · rfl
  · rfl

lemma mem_HEXCHARS_ne_hyphen (c : Char) (h : c ∈ HEXCHARS) : (c != '-') = true := by
  fin_cases h <;> rfl

lemma list_length_eight {α : Type} (l : List α) (h : l.length = 8) :
    ∃ c0 c1 c2 c3 c4 c5 c6 c7, l = [c0, c1, c2, c3, c4, c5, c6, c7] := by
  rcases l with _ | ⟨c0, _ | ⟨c1, _ | ⟨c2, _ | ⟨c3, _ | ⟨c4, _ | ⟨c5, _ | ⟨c6, _ | ⟨c7, rest⟩⟩⟩⟩⟩⟩⟩⟩ <;>
    simp_all

lemma get_formatted_address_data (a : Nat) (ha : a < 2 ^ 32) :
    ∃ c0 c1 c2 c3 c4 c5 c6 c7,
      padLeft 8 (toHexList a) = [c0, c1, c2, c3, c4, c5, c6, c7] ∧
      (get_formatted_address a).data =
        [c0, c1, '-', c2, c3, '-', c4, c5, '-', c6, c7] := by
  obtain ⟨c0, c1, c2, c3, c4, c5, c6, c7, hl⟩ :=
    list_length_eight (padLeft 8 (toHexList a)) (padLeft8_length a ha)
  refine ⟨c0, c1, c2, c3, c4, c5, c6, c7, hl, ?_⟩
  unfold get_formatted_address
  rw [hl]
  rfl

lemma unformat_format (a : Nat) (ha : a < 2 ^ 32) :
    unformatAddress (get_formatted_address a) = a := by
  obtain ⟨c0, c1, c2, c3, c4, c5, c6, c7, hpad, hdata⟩ := get_formatted_address_data a ha
  have hmem : ∀ c ∈ ([c0, c1, c2, c3, c4, c5, c6, c7] : List Char), c ∈ HEXCHARS := by
    rw [← hpad]
    exact mem_padLeft 8 (toHexList a) (mem_toHexList a)
  unfold unformatAddress
  rw [hdata]
  have f0 := mem_HEXCHARS_ne_hyphen c0 (hmem c0 (by simp))
  have f1 := mem_HEXCHARS_ne_hyphen c1 (hmem c1 (by simp))
  have f2 := mem_HEXCHARS_ne_hyphen c2 (hmem c2 (by simp))
  have f3 := mem_HEXCHARS_ne_hyphen c3 (hmem c3 (by simp))
  have f4 := mem_HEXCHARS_ne_hyphen c4 (hmem c4 (by simp))
  have f5 := mem_HEXCHARS_ne_hyphen c5 (hmem c5 (by simp))
  have f6 := mem_HEXCHARS_ne_hyphen c6 (hmem c6 (by simp))
  have f7 := mem_HEXCHARS_ne_hyphen c7 (hmem c7 (by simp))
  have hfil :
      List.filter (fun c => c != '-') [c0, c1, '-', c2, c3, '-', c4, c5, '-', c6, c7] =
        [c0, c1, c2, c3, c4, c5, c6, c7] := by
    simp [List.filter_cons, f0, f1, f2, f3, f4, f5, f6, f7]
  rw [hfil, ← hpad, decodeHex_padLeft, decodeHex_toHexList]

/-- A string of four uppercase two-hex-digit octets separated by hyphens. -/
def isHyphenatedHex8 (s : String) : Prop :=
  ∃ c0 c1 c2 c3 c4 c5 c6 c7,
    (∀ c ∈ ([c0, c1, c2, c3, c4, c5, c6, c7] : List Char), c ∈ HEXCHARS) ∧
    s.data = [c0, c1, '-', c2, c3, '-', c4, c5, '-', c6, c7]

/-- C3 counterexample: a telegram of recognized sensor class `RPSMessage`
carrying the outgoing marker, a fresh address and organization code `0`
(not one of the mapped codes 5, 6, 7) makes `add_sensor` raise the
`KeyError` of the unguarded `ORG_MAPPING[msg.org]` lookup, so the
accumulator does not silently absorb every input. -/
theorem c3_counterexample :
    add_sensor (fun _ => none)
      ⟨MsgType.RPSMessage, 0, [1, 2, 3, 4], [], true⟩ (HaConfig.start 0 false) =
      .error "KeyError: org" := by
  rfl

/-- C3 (amended): `add_device` never raises on any descriptor, and
`add_sensor` never raises on a telegram whose organization code is one
of the mapped codes 5, 6, 7, or which fails any of the guards (class
not in `SENSOR_MESSAGE_TYPES`, no outgoing marker, or address already
deduplicated).  Only a recognized sensor-class telegram with the
outgoing marker, a fresh address and an unmapped organization code
raises (`KeyError` from `ORG_MAPPING[msg.org]`). -/
theorem c3_no_raise_amended (parse : List Nat → Option (List Nat)) (msg : Telegram)
    (cfg : HaConfig) (device_name : String) (base : Nat)
    (h : msg.org = 5 ∨ msg.org = 6 ∨ msg.org = 7 ∨ msg.msgType ∉ SENSOR_MESSAGE_TYPES ∨
      msg.hasOutgoing = false ∨ msg.address ∈ cfg.sener_id_list) :
    (∃ cfgD, add_device cfg device_name base = .ok cfgD) ∧
    (∃ cfgS, add_sensor parse msg cfg = .ok cfgS) := by
  refine ⟨add_device_ok cfg device_name base, ?_⟩
  by_cases ht : msg.msgType ∈ SENSOR_MESSAGE_TYPES
  · by_cases ho : msg.hasOutgoing = true
    · by_cases ha : msg.address ∈ cfg.sener_id_list
      · exact ⟨cfg, add_sensor_dup parse msg cfg ha⟩
      · obtain ⟨info, hi⟩ : ∃ info, ORG_MAPPING msg.org = some info := by
          rcases h with h5 | h6 | h7 | hc | hc | hc
          · exact ⟨⟨"RPS", "F6", "Switch", "binary_sensor", "F6-02-01"⟩,
              by simp [ORG_MAPPING, h5]⟩
          · exact ⟨⟨"1BS", "D5", "1 Byte Communication", "sensor", "D5-??-??"⟩,
              by simp [ORG_MAPPING, h6]⟩
          · exact ⟨⟨"4BS", "A5", "4 Byte Communication", "sensor", "A5-??-??"⟩,
              by simp [ORG_MAPPING, h7]⟩
          · exact absurd ht hc
          · exact absurd ho (by simp [hc])
          · exact absurd hc ha
        exact ⟨_, add_sensor_fresh parse msg cfg info ht ho hi ha⟩
    · have ho' : msg.hasOutgoing = false := by simpa using ho
      exact ⟨cfg, by simp [add_sensor, ho']⟩
  · exact ⟨cfg, by simp [add_sensor, ht]⟩

/-- Witness for C3 (amended) at a concrete mapped-org telegram and a
concrete device descriptor. -/
theorem c3_no_raise_amended_witness :
    (∃ cfgD, add_device (HaConfig.start 0 false) "FSR14_x2" 0 = .ok cfgD) ∧
    (∃ cfgS, add_sensor (fun _ => none)
        ⟨MsgType.RPSMessage, 5, [1, 2, 3, 4], [], true⟩ (HaConfig.start 0 false) = .ok cfgS) :=
  c3_no_raise_amended (fun _ => none) ⟨MsgType.RPSMessage, 5, [1, 2, 3, 4], [], true⟩
    (HaConfig.start 0 false) "FSR14_x2" 0 (Or.inl rfl)

/-- C4: the hardware unit `FSR14_x2` at base address `0x100` with default
sender address `0x200` expands to exactly the two light-role records
with ids formatted from `0x100` and `0x101`, eep `M5-38-08`, and sender
sub-records formatted from `0x300` and `0x301` with eep `A5-38-08`. -/
theorem c4_fsr14_x2_example :
    add_device (HaConfig.start 0x200 false) "FSR14_x2" 0x100 =
      .ok { eltako :=
              [("light",
                [ { id := get_formatted_address 0x100
                    eep := "M5-38-08"
                    name := "FSR14_x2 - 256"
                    sender := some (get_formatted_address 0x300, "A5-38-08")
                    device_class := none
                    time_closes := none
                    time_opens := none
                    comment := none },
                  { id := get_formatted_address 0x101
                    eep := "M5-38-08"
                    name := "FSR14_x2 - 257"
                    sender := some (get_formatted_address 0x301, "A5-38-08")
                    device_class := none
                    time_closes := none
                    time_opens := none
                    comment := none } ])]
            sener_id_list := []
            sender_address := 0x200
            export_logger := false } := by
  rfl

/-- C6: a telegram without the outgoing/learn-flag marker
(`hasattr(msg, 'outgoing')` false) never produces a sensor record:
`add_sensor` returns the accumulator unchanged and raises nothing,
whatever the telegram's class, address or organization code. -/
theorem c6_no_outgoing_marker (parse : List Nat → Option (List Nat)) (msg : Telegram)
    (cfg : HaConfig) (h : msg.hasOutgoing = false) :
    add_sensor parse msg cfg = .ok cfg := by
  simp [add_sensor, h]

/-- Witness for C6 at a concrete telegram without the outgoing marker. -/
theorem c6_no_outgoing_marker_witness :
    (⟨MsgType.RPSMessage, 5, [1, 2, 3, 4], [], false⟩ : Telegram).hasOutgoing = false ∧
    add_sensor (fun _ => none)
      ⟨MsgType.RPSMessage, 5, [1, 2, 3, 4], [], false⟩ (HaConfig.start 7 true) =
      .ok (HaConfig.start 7 true) :=
  ⟨rfl, c6_no_outgoing_marker (fun _ => none)
    ⟨MsgType.RPSMessage, 5, [1, 2, 3, 4], [], false⟩ (HaConfig.start 7 true) rfl⟩

/-- C7: a hardware-type name with no row in `EEP_MAPPING` makes
`add_device` a no-op: zero records, no exception, state unchanged. -/
theorem c7_unknown_hw_type (cfg : HaConfig) (device_name : String) (base : Nat)
    (h : find_device_info device_name = none) :
    add_device cfg device_name base = .ok cfg := by
  simp [add_device, h]

/-- Witness for C7 at a concrete unknown hardware-type name. -/
theorem c7_unknown_hw_type_witness :
    find_device_info "FOO99" = none ∧
    add_device (HaConfig.start 3 false) "FOO99" 44 = .ok (HaConfig.start 3 false) :=
  ⟨by decide, c7_unknown_hw_type (HaConfig.start 3 false) "FOO99" 44 (by decide)⟩

/-- C8: every record produced by `add_device` for a cover-role profile
carries `device_class = "shutter"`, `time_closes = 24` and
`time_opens = 25`, for every base address. -/
theorem c8_cover_defaults (cfg : HaConfig) (device_name : String) (base : Nat) (info : Profile)
    (hfind : find_device_info device_name = some info) (hcover : info.type = "cover") :
    ∃ cfg', add_device cfg device_name base = .ok cfg' ∧
      getList cfg'.eltako info.type =
        getList cfg.eltako info.type ++
          (List.range info.address_count).map
            (fun i => devObj cfg.sender_address info device_name (base + i)) ∧
      ∀ i : Nat,
        (devObj cfg.sender_address info device_name (base + i)).device_class = some "shutter" ∧
        (devObj cfg.sender_address info device_name (base + i)).time_closes = some 24 ∧
        (devObj cfg.sender_address info device_name (base + i)).time_opens = some 25 := by
  have hmem : info ∈ EEP_MAPPING := List.mem_of_find?_eq_some hfind
  refine ⟨_, add_device_eq_fold cfg device_name base info hfind (add_device_no_error info hmem),
    foldl_addDevStep_getList_self info device_name base info.address_count cfg, ?_⟩
  intro i
  simp [devObj, hcover]

/-- Witness for C8 at the cover profile `FSB14` and base address 9. -/
theorem c8_cover_defaults_witness :
    find_device_info "FSB14" =
      some ⟨"FSB14", "G5-3F-7F", some "H5-3F-7F", "cover", "Eltako cover", 1⟩ ∧
    (∃ cfg', add_device (HaConfig.start 2 false) "FSB14" 9 = .ok cfg' ∧
      getList cfg'.eltako "cover" =
        getList (HaConfig.start 2 false).eltako "cover" ++
          (List.range 1).map
            (fun i =>
              devObj 2 ⟨"FSB14", "G5-3F-7F", some "H5-3F-7F", "cover", "Eltako cover", 1⟩
                "FSB14" (9 + i)) ∧
      ∀ i : Nat,
        (devObj 2 ⟨"FSB14", "G5-3F-7F", some "H5-3F-7F", "cover", "Eltako cover", 1⟩
            "FSB14" (9 + i)).device_class = some "shutter" ∧
        (devObj 2 ⟨"FSB14", "G5-3F-7F", some "H5-3F-7F", "cover", "Eltako cover", 1⟩
            "FSB14" (9 + i)).time_closes = some 24 ∧
        (devObj 2 ⟨"FSB14", "G5-3F-7F", some "H5-3F-7F", "cover", "Eltako cover", 1⟩
            "FSB14" (9 + i)).time_opens = some 25) :=
  ⟨by decide, c8_cover_defaults (HaConfig.start 2 false) "FSB14" 9
    ⟨"FSB14", "G5-3F-7F", some "H5-3F-7F", "cover", "Eltako cover", 1⟩ (by decide) rfl⟩

/-- C1: for every descriptor whose type name has a profile with
address-span N, `add_device` appends exactly N records to the profile's
role list, the i-th having address `base + i`, each independently
formatted by `get_formatted_address`. -/
theorem c1_address_span (cfg : HaConfig) (device_name : String) (base : Nat) (info : Profile)
    (hfind : find_device_info device_name = some info) :
    ∃ cfg', add_device cfg device_name base = .ok cfg' ∧
      getList cfg'.eltako info.type =
        getList cfg.eltako info.type ++
          (List.range info.address_count).map
            (fun i => devObj cfg.sender_address info device_name (base + i)) ∧
      numRecords cfg' = numRecords cfg + info.address_count ∧
      ((List.range info.address_count).map
          (fun i => devObj cfg.sender_address info device_name (base + i))).length =
        info.address_count ∧
      ∀ i, i < info.address_count →
        ((List.range info.address_count).map
            (fun i => devObj cfg.sender_address info device_name (base + i))).get? i =
          some (devObj cfg.sender_address info device_name (base + i)) ∧
        (devObj cfg.sender_address info device_name (base + i)).id =
          get_formatted_address (base + i) := by
  have hmem : info ∈ EEP_MAPPING := List.mem_of_find?_eq_some hfind
  refine ⟨_, add_device_eq_fold cfg device_name base info hfind (add_device_no_error info hmem),
    foldl_addDevStep_getList_self info device_name base info.address_count cfg, ?_, by simp, ?_⟩
  · have := foldl_addDevStep_numRecords info device_name base (List.range info.address_count) cfg
    simpa using this
  · intro i hi
    refine ⟨?_, rfl⟩
    rw [List.get?_map, List.get?_range hi]
    rfl

/-- Witness for C1 at the profile of `FUD14` (address-span 1). -/
theorem c1_address_span_witness :
    find_device_info "FUD14" =
      some ⟨"FUD14", "A5-38-08", some "A5-38-08", "light", "Central command - gateway", 1⟩ ∧
    (∃ cfg', add_device (HaConfig.start 5 false) "FUD14" 3 = .ok cfg' ∧
      getList cfg'.eltako "light" =
        getList (HaConfig.start 5 false).eltako "light" ++
          (List.range 1).map
            (fun i =>
              devObj 5 ⟨"FUD14", "A5-38-08", some "A5-38-08", "light", "Central command - gateway", 1⟩
                "FUD14" (3 + i)) ∧
      numRecords cfg' = numRecords (HaConfig.start 5 false) + 1 ∧
      ((List.range 1).map
          (fun i =>
            devObj 5 ⟨"FUD14", "A5-38-08", some "A5-38-08", "light", "Central command - gateway", 1⟩
              "FUD14" (3 + i))).length = 1 ∧
      ∀ i, i < 1 →
        ((List.range 1).map
            (fun i =>
              devObj 5 ⟨"FUD14", "A5-38-08", some "A5-38-08", "light", "Central command - gateway", 1⟩
                "FUD14" (3 + i))).get? i =
          some (devObj 5 ⟨"FUD14", "A5-38-08", some "A5-38-08", "light", "Central command - gateway", 1⟩
            "FUD14" (3 + i)) ∧
        (devObj 5 ⟨"FUD14", "A5-38-08", some "A5-38-08", "light", "Central command - gateway", 1⟩
          "FUD14" (3 + i)).id = get_formatted_address (3 + i)) :=
  ⟨by decide, c1_address_span (HaConfig.start 5 false) "FUD14" 3
    ⟨"FUD14", "A5-38-08", some "A5-38-08", "light", "Central command - gateway", 1⟩ (by decide)⟩

/-- C2: for sensor telegrams passing the guards, `add_sensor` is an
idempotent dedup keyed by address: a first call with a fresh address
adds exactly one record and its address to the dedup list; a second
call with the same address adds nothing; a second call with a different
fresh address adds exactly one more record. -/
theorem c2_sensor_dedup (parse : List Nat → Option (List Nat)) (t1 t2 : Telegram)
    (cfg : HaConfig) (i1 i2 : OrgInfo)
    (h1t : t1.msgType ∈ SENSOR_MESSAGE_TYPES) (h1o : t1.hasOutgoing = true)
    (h1org : ORG_MAPPING t1.org = some i1) (h1a : t1.address ∉ cfg.sener_id_list)
    (h2t : t2.msgType ∈ SENSOR_MESSAGE_TYPES) (h2o : t2.hasOutgoing = true)
    (h2org : ORG_MAPPING t2.org = some i2) (h2a : t2.address ∉ cfg.sener_id_list) :
    ∃ c1, add_sensor parse t1 cfg = .ok c1 ∧
      numRecords c1 = numRecords cfg + 1 ∧
      c1.sener_id_list = cfg.sener_id_list ++ [t1.address] ∧
      (t2.address = t1.address → add_sensor parse t2 c1 = .ok c1) ∧
      (t2.address ≠ t1.address →
        ∃ c2, add_sensor parse t2 c1 = .ok c2 ∧
          numRecords c2 = numRecords cfg + 2 ∧
          c2.sener_id_list = cfg.sener_id_list ++ [t1.address, t2.address]) := by
  refine ⟨_, add_sensor_fresh parse t1 cfg i1 h1t h1o h1org h1a, ?_, rfl, ?_, ?_⟩
  · simp [numRecords, numRecords_appendRec]
  · intro heq
    apply add_sensor_dup
    simp [heq]
  · intro hne
    have ha2 : t2.address ∉ cfg.sener_id_list ++ [t1.address] := by
      simp only [List.mem_append, List.mem_singleton]
      rintro (hc | hc)
      · exact h2a hc
      · exact hne hc
    refine ⟨_, add_sensor_fresh parse t2 _ i2 h2t h2o h2org ha2, ?_, ?_⟩
    · simp [numRecords, numRecords_appendRec]
    · simp

/-- Witness for C2 at two concrete telegrams with the same address. -/
theorem c2_sensor_dedup_witness :
    ∃ c1, add_sensor (fun _ => none)
        ⟨MsgType.RPSMessage, 5, [1, 2, 3, 4], [], true⟩ (HaConfig.start 0 false) = .ok c1 ∧
      numRecords c1 = numRecords (HaConfig.start 0 false) + 1 ∧
      c1.sener_id_list = (HaConfig.start 0 false).sener_id_list ++ [[1, 2, 3, 4]] ∧
      ((⟨MsgType.Regular4BSMessage, 7, [1, 2, 3, 4], [], true⟩ : Telegram).address =
          (⟨MsgType.RPSMessage, 5, [1, 2, 3, 4], [], true⟩ : Telegram).address →
        add_sensor (fun _ => none)
          ⟨MsgType.Regular4BSMessage, 7, [1, 2, 3, 4], [], true⟩ c1 = .ok c1) ∧
      ((⟨MsgType.Regular4BSMessage, 7, [1, 2, 3, 4], [], true⟩ : Telegram).address ≠
          (⟨MsgType.RPSMessage, 5, [1, 2, 3, 4], [], true⟩ : Telegram).address →
        ∃ c2, add_sensor (fun _ => none)
            ⟨MsgType.Regular4BSMessage, 7, [1, 2, 3, 4], [], true⟩ c1 = .ok c2 ∧
          numRecords c2 = numRecords (HaConfig.start 0 false) + 2 ∧
          c2.sener_id_list =
            (HaConfig.start 0 false).sener_id_list ++ [[1, 2, 3, 4], [1, 2, 3, 4]]) :=
  c2_sensor_dedup (fun _ => none)
    ⟨MsgType.RPSMessage, 5, [1, 2, 3, 4], [], true⟩
    ⟨MsgType.Regular4BSMessage, 7, [1, 2, 3, 4], [], true⟩
    (HaConfig.start 0 false)
    ⟨"RPS", "F6", "Switch", "binary_sensor", "F6-02-01"⟩
    ⟨"4BS", "A5", "4 Byte Communication", "sensor", "A5-??-??"⟩
    (by decide) rfl (by decide) (by decide) (by decide) rfl (by decide) (by decide)

/-- C5: for a `Regular1BSMessage` telegram whose reinterpreted frame
parses (the library call is the `parse` parameter), the classifier
returns the fixed switch-controller label `"FTS14EM switch"` exactly
when the parsed address lies in the inclusive byte range
`00-00-10-01 .. 00-00-14-89`, and the unknown label `"???"` otherwise. -/
theorem c5_1bs_address_range (parse : List Nat → Option (List Nat)) (msg : Telegram)
    (addr : List Nat) (hty : msg.msgType = MsgType.Regular1BSMessage)
    (hp : parse (reinterpretData msg) = some addr) :
    guess_sensor_type_by_address parse msg =
      (if bytesLe min_address addr && bytesLe addr max_address then "FTS14EM switch"
       else "???") := by
  rw [guess_sensor_type_by_address]
  simp only [hty, hp]
  cases hcond : bytesLe min_address addr && bytesLe addr max_address <;> simp [hcond]

/-- Witness for C5 at a concrete in-range parse result. -/
theorem c5_1bs_address_range_witness :
    (⟨MsgType.Regular1BSMessage, 6, [9, 9, 9, 9], [1, 2, 3], true⟩ : Telegram).msgType =
      MsgType.Regular1BSMessage ∧
    guess_sensor_type_by_address (fun _ => some [0, 0, 0x10, 0x01])
        ⟨MsgType.Regular1BSMessage, 6, [9, 9, 9, 9], [1, 2, 3], true⟩ =
      (if bytesLe min_address [0, 0, 0x10, 0x01] && bytesLe [0, 0, 0x10, 0x01] max_address then
        "FTS14EM switch"
       else "???") :=
  ⟨rfl, c5_1bs_address_range (fun _ => some [0, 0, 0x10, 0x01])
    ⟨MsgType.Regular1BSMessage, 6, [9, 9, 9, 9], [1, 2, 3], true⟩ [0, 0, 0x10, 0x01] rfl rfl⟩

/-- C9: for addresses below `2^32`, `get_formatted_address` yields an
11-character string of four uppercase two-hex-digit octets separated by
hyphens, and is injective on that range. -/
theorem c9_format_injective (a b : Nat) (ha : a < 2 ^ 32) (hb : b < 2 ^ 32) :
    isHyphenatedHex8 (get_formatted_address a) ∧
    (get_formatted_address a).length = 11 ∧
    (get_formatted_address a = get_formatted_address b → a = b) := by
  obtain ⟨c0, c1, c2, c3, c4, c5, c6, c7, hpad, hdata⟩ := get_formatted_address_data a ha
  have hmem : ∀ c ∈ ([c0, c1, c2, c3, c4, c5, c6, c7] : List Char), c ∈ HEXCHARS := by
    rw [← hpad]
    exact mem_padLeft 8 (toHexList a) (mem_toHexList a)
  refine ⟨⟨c0, c1, c2, c3, c4, c5, c6, c7, hmem, hdata⟩, ?_, ?_⟩
  · show (get_formatted_address a).data.length = 11
    rw [hdata]
    rfl
  · intro h
    have h2 := congrArg unformatAddress h
    rwa [unformat_format a ha, unformat_format b hb] at h2

/-- Witness for C9 at the concrete addresses 0 and 0. -/
theorem c9_format_injective_witness :
    (0 : Nat) < 2 ^ 32 ∧
    (isHyphenatedHex8 (get_formatted_address 0) ∧
      (get_formatted_address 0).length = 11 ∧
      (get_formatted_address 0 = get_formatted_address 0 → (0 : Nat) = 0)) :=
  ⟨by norm_num, c9_format_injective 0 0 (by norm_num) (by norm_num)⟩

/-- C10: `add_device` never touches the sensor dedup list or the default
sender address and appends only to one role category; `add_sensor`
never touches the default sender address and appends only to one role
category; all other categories' lists are unchanged by either. -/
theorem c10_frame_conditions (parse : List Nat → Option (List Nat)) (msg : Telegram)
    (cfg : HaConfig) (device_name : String) (base : Nat) (cfgD cfgS : HaConfig)
    (hD : add_device cfg device_name base = .ok cfgD)
    (hS : add_sensor parse msg cfg = .ok cfgS) :
    cfgD.sener_id_list = cfg.sener_id_list ∧
    cfgD.sender_address = cfg.sender_address ∧
    (∃ k, ∀ k', k' ≠ k → getList cfgD.eltako k' = getList cfg.eltako k') ∧
    cfgS.sender_address = cfg.sender_address ∧
    (∃ k, ∀ k', k' ≠ k → getList cfgS.eltako k' = getList cfg.eltako k') := by
  have hdev : cfgD.sener_id_list = cfg.sener_id_list ∧
      cfgD.sender_address = cfg.sender_address ∧
      (∃ k, ∀ k', k' ≠ k → getList cfgD.eltako k' = getList cfg.eltako k') := by
    cases hf : find_device_info device_name with
    | none =>
      have : cfg = cfgD := by
        have h := hD
        rw [add_device, hf] at h
        exact Except.ok.inj h
      subst this
      exact ⟨rfl, rfl, "", fun k' _ => rfl⟩
    | some info =>
      have hmem : info ∈ EEP_MAPPING := List.mem_of_find?_eq_some hf
      have h := hD
      rw [add_device_eq_fold cfg device_name base info hf (add_device_no_error info hmem)] at h
      have hfold := Except.ok.inj h
      subst hfold
      obtain ⟨hs1, hs2, _⟩ :=
        foldl_addDevStep_frame info device_name base (List.range info.address_count) cfg
      exact ⟨hs1, hs2, info.type,
        fun k' hk' => foldl_addDevStep_getList_ne info device_name base k' hk'
          (List.range info.address_count) cfg⟩
  refine ⟨hdev.1, hdev.2.1, hdev.2.2, ?_⟩
  by_cases ht : msg.msgType ∈ SENSOR_MESSAGE_TYPES
  · by_cases ho : msg.hasOutgoing = true
    · by_cases ha : msg.address ∈ cfg.sener_id_list
      · have : cfg = cfgS := by
          have h := hS
          rw [add_sensor_dup parse msg cfg ha] at h
          exact Except.ok.inj h
        subst this
        exact ⟨rfl, "", fun k' _ => rfl⟩
      · cases horg : ORG_MAPPING msg.org with
        | none =>
          exfalso
          have h := hS
          simp [add_sensor, ht, ho, ha, horg] at h
        | some info =>
          have h := hS
          rw [add_sensor_fresh parse msg cfg info ht ho horg ha] at h
          have := Except.ok.inj h
          subst this
          exact ⟨rfl, info.type,
            fun k' hk' => getList_appendRec_ne cfg.eltako info.type k' _ hk'⟩
    · have ho' : msg.hasOutgoing = false := by simpa using ho
      have h := hS
      simp only [add_sensor, ho', Bool.false_eq_true, if_false, ite_self] at h
      have : cfg = cfgS := Except.ok.inj h
      subst this
      exact ⟨rfl, "", fun k' _ => rfl⟩
  · have : cfg = cfgS := by
      have h := hS
      simp only [add_sensor, if_neg ht] at h
      exact Except.ok.inj h
    subst this
    exact ⟨rfl, "", fun k' _ => rfl⟩

/-- Witness for C10 at a concrete no-op descriptor and telegram. -/
theorem c10_frame_conditions_witness :
    add_device (HaConfig.start 1 false) "FOO99" 2 = .ok (HaConfig.start 1 false) ∧
    add_sensor (fun _ => none)
      ⟨MsgType.RPSMessage, 5, [1, 2, 3, 4], [], false⟩ (HaConfig.start 1 false) =
      .ok (HaConfig.start 1 false) ∧
    ((HaConfig.start 1 false).sener_id_list = (HaConfig.start 1 false).sener_id_list ∧
      (HaConfig.start 1 false).sender_address = (HaConfig.start 1 false).sender_address ∧
      (∃ k, ∀ k', k' ≠ k →
        getList (HaConfig.start 1 false).eltako k' = getList (HaConfig.start 1 false).eltako k') ∧
      (HaConfig.start 1 false).sender_address = (HaConfig.start 1 false).sender_address ∧
      (∃ k, ∀ k', k' ≠ k →
        getList (HaConfig.start 1 false).eltako k' = getList (HaConfig.start 1 false).eltako k')) :=
  ⟨rfl, rfl,
    c10_frame_conditions (fun _ => none) ⟨MsgType.RPSMessage, 5, [1, 2, 3, 4], [], false⟩
      (HaConfig.start 1 false) "FOO99" 2 (HaConfig.start 1 false) (HaConfig.start 1 false)
      rfl rfl⟩
